import Mathlib

set_option maxRecDepth 10000

/-!
Verification development for the AI-Persona-Chatbot core: a shallow
embedding of the decision logic of `app.py`, `persona_enhancer.py` and
`memory_learning.py`, followed by theorems about the embedded functions.

Modelling conventions:
* Python dict-backed profiles become a structure with `Option String`
  fields; a missing key is `none`, and `d.get(k, '')` is `pget`.
* Python `needle in hay` (substring test) is `strIn needle hay`.
* The storage capability and the completion capability are explicit
  parameters; an exception raised by a capability is an `Except.error`,
  caught by the embedded `try`/`except` blocks exactly where the source
  catches it.
* `json.loads` (Python standard library, external to the repository) is
  an abstract parameter `jparse : String → Option AnalysisData`; `none`
  models `json.JSONDecodeError`.
-/

/- ## String utilities modelling Python primitives -/

/-- `begWith hay needle`: `needle` is an initial segment of `hay`
(models Python `hay.startswith(needle)` at char-list level). -/
def begWith : List Char → List Char → Bool
  | _, [] => true
  | [], _ :: _ => false
  | a :: as, b :: bs => a == b && begWith as bs

/-- `hasSub hay needle`: `needle` occurs contiguously in `hay`
(models Python `needle in hay` at char-list level). -/
def hasSub : List Char → List Char → Bool
  | [], needle => needle.isEmpty
  | a :: t, needle => begWith (a :: t) needle || hasSub t needle

/-- Model of the Python membership test `needle in hay` on strings. -/
def strIn (needle hay : String) : Bool := hasSub hay.data needle.data

/-- The characters removed by the source's `.strip(', ')`. -/
def stripChar (c : Char) : Bool := c == ',' || c == ' '

/-- Remove the longest run of `stripChar` characters from the front. -/
def dropLeadCh : List Char → List Char
  | [] => []
  | a :: t => if stripChar a then dropLeadCh t else a :: t

/-- Model of Python `s.strip(', ')`: remove `,` and space characters
from both ends of `s`. -/
def pyStripCS (s : String) : String :=
  String.mk ((dropLeadCh ((dropLeadCh s.data).reverse)).reverse)

/-- Model of Python `s.lower()` (ASCII case folding, which covers every
keyword the source tests). -/
def pyLower (s : String) : String := String.mk (s.data.map Char.toLower)

/-- The whitespace characters stripped by Python `str.strip()`. -/
def pyWS (c : Char) : Bool :=
  c == ' ' || c == '\t' || c == '\n' || c == '\r' || c == '\x0b' || c == '\x0c'

/-- Remove the longest run of whitespace from the front. -/
def dropLeadWS : List Char → List Char
  | [] => []
  | a :: t => if pyWS a then dropLeadWS t else a :: t

/-- Model of Python `s.strip()`. -/
def pyStripWS (s : String) : String :=
  String.mk ((dropLeadWS ((dropLeadWS s.data).reverse)).reverse)

/-- Model of Python `s.startswith(pat)`. -/
def strBeg (pat s : String) : Bool := begWith s.data pat.data

/-- The characters before the first occurrence of `sep` (everything
when `sep` does not occur). -/
def upTo (sep : List Char) : List Char → List Char
  | [] => []
  | c :: t => if begWith (c :: t) sep then [] else c :: upTo sep t

/-- Model of Python `sep.join(l)`. -/
def pyJoinSep (sep : String) : List String → String
  | [] => ""
  | [a] => a
  | a :: b :: rest => a ++ sep ++ pyJoinSep sep (b :: rest)

/-- Model of Python `d.get(key, '')` for an optional string field. -/
def pget (o : Option String) : String := o.getD ""

/-- Concatenation of a list of strings (accumulation by repeated `+=`). -/
def joinAll : List String → String
  | [] => ""
  | s :: r => s ++ joinAll r

/- ## Data model -/

/-- A chat message as stored by the persistence layer:
`{'role': ..., 'content': ...}`. -/
structure Msg where
  role : String
  content : String
deriving DecidableEq, Repr

/-- One stored conversation record. Its `messages` column is JSON text
that `build_memory_context` decodes with `json.loads`; an `Except.error`
models a malformed column (a raised `JSONDecodeError`). -/
structure Conv where
  messages : Except String (List Msg)
deriving Repr

/-- The character profile dict: all six keys optional
(`none` = key absent). -/
structure PersonaProfile where
  name : Option String := none
  personality : Option String := none
  behaviors : Option String := none
  speaking_style : Option String := none
  mannerisms : Option String := none
  background : Option String := none
deriving DecidableEq, Repr

/-- The analysis payload dict produced by parsing the completion
response (or the `raw_response` fallback dict). Every key is optional. -/
structure AnalysisData where
  common_topics : Option (List String) := none
  successful_patterns : Option (List String) := none
  suggested_personality_additions : Option String := none
  suggested_behavior_additions : Option String := none
  speaking_style_refinements : Option String := none
  raw_response : Option String := none
deriving DecidableEq, Repr

/-- The discriminated result dict returned by
`analyze_conversation_patterns` and consumed by
`apply_learning_to_persona`. -/
structure LearningAnalysis where
  success : Bool
  message : Option String := none
  analysis : Option AnalysisData := none
deriving DecidableEq, Repr

/-- The tone configuration dict returned by
`analyze_tone_and_emoji_patterns`. -/
structure ToneConfig where
  emoji_usage : String
  emoji_examples : List String
  tone_patterns : List String
  speaking_patterns : List String
deriving DecidableEq, Repr

/- ## persona_enhancer.py -/

/-- `high_emoji_keywords` from `analyze_tone_and_emoji_patterns`. -/
def high_emoji_keywords : List String :=
  ["cheerful", "enthusiastic", "upbeat", "energetic", "bubbly", "expressive", "fun", "playful"]

/-- `low_emoji_keywords` from `analyze_tone_and_emoji_patterns`. -/
def low_emoji_keywords : List String :=
  ["serious", "professional", "formal", "reserved", "stoic", "academic", "scholarly"]

/-- `keyword in personality or keyword in speaking_style`. -/
def kwHit (k personality speaking_style : String) : Bool :=
  strIn k personality || strIn k speaking_style

/-- Embedding of `persona_enhancer.analyze_tone_and_emoji_patterns`.
The source initialises `emoji_usage`/`emoji_examples` to the moderate
defaults and then unconditionally reassigns them in an
`if`/`elif`/`else` chain; the embedding writes the chain directly. -/
def analyze_tone_and_emoji_patterns (character_profile : PersonaProfile) : ToneConfig :=
  let personality := pyLower (pget character_profile.personality)
  let speaking_style := pyLower (pget character_profile.speaking_style)
  let hi := high_emoji_keywords.any (fun k => kwHit k personality speaking_style)
  let lo := low_emoji_keywords.any (fun k => kwHit k personality speaking_style)
  let emoji_usage := if hi then "high" else if lo then "minimal" else "moderate"
  let emoji_examples :=
    if hi then ["😊", "✨", "🎉", "💫", "🌟", "❤️", "🙌", "👍"]
    else if lo then []
    else ["😊", "👍", "✨"]
  let tone_patterns :=
    (if strIn "friendly" personality || strIn "warm" personality then
      ["Use warm, welcoming language"] else []) ++
    (if strIn "professional" personality || strIn "formal" speaking_style then
      ["Maintain professional demeanor"] else []) ++
    (if strIn "casual" speaking_style || strIn "relaxed" personality then
      ["Keep responses conversational and relaxed"] else []) ++
    (if strIn "enthusiastic" personality || strIn "excited" personality then
      ["Show excitement with exclamation marks"] else []) ++
    (if strIn "thoughtful" personality || strIn "contemplative" personality then
      ["Take time to reflect before responding"] else []) ++
    (if strIn "humorous" personality || strIn "witty" personality || strIn "funny" personality then
      ["Include appropriate humor and wit"] else [])
  let speaking_patterns :=
    (if strIn "short" speaking_style || strIn "concise" speaking_style then
      ["Keep responses brief and to the point"]
     else if strIn "detailed" speaking_style || strIn "elaborate" speaking_style then
      ["Provide detailed, comprehensive responses"]
     else []) ++
    (if strIn "questions" personality || strIn "curious" personality then
      ["Ask follow-up questions naturally"] else []) ++
    (if strIn "stories" personality || strIn "narrative" speaking_style then
      ["Share relevant anecdotes and stories"] else [])
  { emoji_usage := emoji_usage, emoji_examples := emoji_examples,
    tone_patterns := tone_patterns, speaking_patterns := speaking_patterns }

/-- Embedding of `persona_enhancer.enhance_system_prompt_with_patterns`. -/
def enhance_system_prompt_with_patterns (base_prompt : String) (patterns : ToneConfig) : String :=
  let e := base_prompt
  let e :=
    if patterns.emoji_usage = "high" then
      e ++ "\n\nEmoji Usage: Use emojis frequently to express emotions and add warmth. Examples: " ++
        pyJoinSep ", " patterns.emoji_examples
    else if patterns.emoji_usage = "moderate" then
      e ++ "\n\nEmoji Usage: Use emojis occasionally for emphasis. Examples: " ++
        pyJoinSep ", " patterns.emoji_examples
    else if patterns.emoji_usage = "minimal" then
      e ++ "\n\nEmoji Usage: Use emojis sparingly or not at all. Maintain a more formal tone."
    else e
  let e :=
    if patterns.tone_patterns.isEmpty then e
    else e ++ "\n\nTone Guidelines:\n" ++
      pyJoinSep "\n" (patterns.tone_patterns.map (fun s => "- " ++ s))
  let e :=
    if patterns.speaking_patterns.isEmpty then e
    else e ++ "\n\nSpeaking Patterns:\n" ++
      pyJoinSep "\n" (patterns.speaking_patterns.map (fun s => "- " ++ s))
  e

/-- Embedding of `persona_enhancer.apply_feedback_to_persona`.
Note the source tests *key presence* (`'speaking_style' in
character_profile`), not truthiness of the value. -/
def apply_feedback_to_persona (character_profile : PersonaProfile)
    (feedback_type : String) (_response_context : String) : List String :=
  if feedback_type = "positive" then
    ["✅ Great! The character\x27s response style is working well in this context.",
     "Consider saving this persona if you haven\x27t already."]
  else
    ["💡 Here are some ways to improve:"] ++
    (if character_profile.speaking_style.isSome then
      ["- Try adjusting the speaking style for better alignment"] else []) ++
    (if character_profile.personality.isSome then
      ["- Consider refining personality traits to better match expectations"] else []) ++
    ["- Use the \x27Refine\x27 feature to get AI-powered suggestions"]

/- ## app.py -/

/-- The fixed header sentence of `generate_system_prompt`. -/
def promptHeader : String := "You are roleplaying as a character with the following attributes:\n\n"

/-- The fixed trailing instruction block of `generate_system_prompt`. -/
def instrBlock : String :=
  "\nInstructions:\n- Stay in character at all times\n- Respond naturally as this person would\n- Use the speaking style and mannerisms described\n- Draw from the personality traits and behaviors when forming responses\n- Be conversational and engaging\n- If asked about things outside your character\x27s knowledge, respond as that character would\n"

/-- One labeled field paragraph, `f"{label}{value}\n\n"`. -/
def fieldPara (label v : String) : String := label ++ v ++ "\n\n"

/-- Embedding of `app.generate_system_prompt`: each field paragraph is
appended only when `character_profile.get(field)` is truthy, i.e. the
key is present with a non-empty value. -/
def generate_system_prompt (character_profile : PersonaProfile) : String :=
  let prompt := promptHeader
  let prompt := if pget character_profile.name ≠ "" then
    prompt ++ fieldPara "Name: " (pget character_profile.name) else prompt
  let prompt := if pget character_profile.personality ≠ "" then
    prompt ++ fieldPara "Personality Traits: " (pget character_profile.personality) else prompt
  let prompt := if pget character_profile.behaviors ≠ "" then
    prompt ++ fieldPara "Behaviors and Habits: " (pget character_profile.behaviors) else prompt
  let prompt := if pget character_profile.speaking_style ≠ "" then
    prompt ++ fieldPara "Speaking Style: " (pget character_profile.speaking_style) else prompt
  let prompt := if pget character_profile.mannerisms ≠ "" then
    prompt ++ fieldPara "Mannerisms and Quirks: " (pget character_profile.mannerisms) else prompt
  let prompt := if pget character_profile.background ≠ "" then
    prompt ++ fieldPara "Background: " (pget character_profile.background) else prompt
  prompt ++ instrBlock

/-- The system prompt actually sent by `app.chat_with_persona`
(lines 59-63): the base prompt enhanced with the tone configuration. -/
def enhancedSystemPrompt (character_profile : PersonaProfile) : String :=
  enhance_system_prompt_with_patterns (generate_system_prompt character_profile)
    (analyze_tone_and_emoji_patterns character_profile)

/- ## memory_learning.py -/

/-- The fixed header of the memory context. -/
def memHeader : String := "\n\nMemory from previous conversations:\n"

/-- The fixed trailing instruction of the memory context. -/
def memTail : String := "\n\nUse these memories naturally in conversation when relevant."

/-- One bullet of the memory context:
`f"- User mentioned: {msg['content'][:80]}..."` (the ellipsis is
appended unconditionally by the source). -/
def bulletOf (m : Msg) : String := "- User mentioned: " ++ String.mk (m.content.data.take 80) ++ "..."

/-- The `summary_points` list of `build_memory_context`: the loop
`for i in range(min(4, len(messages))): msg = messages[-(i+1)]` visits
exactly the last (up to) 4 messages from most recent to least recent,
i.e. `messages.reverse.take 4`, keeping the `role == 'user'` entries. -/
def sessionPoints (messages : List Msg) : List String :=
  (messages.reverse.take 4).filterMap
    (fun msg => if msg.role == "user" then some (bulletOf msg) else none)

/-- The text one conversation contributes to the memory context:
nothing when it has no summary points, otherwise the
`"\nPrevious session:\n"` label followed by the first 2 points. -/
def sessionBlock (messages : List Msg) : String :=
  let pts := sessionPoints messages
  if pts.isEmpty then ""
  else "\nPrevious session:\n" ++ pyJoinSep "\n" (pts.take 2)

/-- The loop body of `build_memory_context` over the retrieved
conversations, in the exception monad: decoding a conversation's
`messages` column can raise, which aborts the whole computation. -/
def convsBlocks : List Conv → Except String String
  | [] => .ok ""
  | c :: rest =>
    match c.messages with
    | .error e => .error e
    | .ok msgs =>
      match convsBlocks rest with
      | .error e => .error e
      | .ok r => .ok (sessionBlock msgs ++ r)

/-- Embedding of `memory_learning.build_memory_context`. The input is
the outcome of `db_module.get_persona_conversations(...)` (the storage
capability, `limit=3`); `Except.error` models a raised storage
exception. The surrounding `try`/`except` maps every raised exception
to the empty string. -/
def build_memory_context (storage : Except String (List Conv)) : String :=
  match storage with
  | .error _ => ""
  | .ok recent_conversations =>
    if recent_conversations.isEmpty then ""
    else
      match convsBlocks recent_conversations with
      | .error _ => ""
      | .ok blocks => memHeader ++ blocks ++ memTail

/-- The fixed insufficient-data message of
`analyze_conversation_patterns`. -/
def needMsg : String :=
  "Need at least 5 conversation exchanges (10 messages) to analyze patterns."

/-- Python `l[-3:]`: the last (up to) 3 elements. -/
def lastThree (l : List String) : List String := l.drop (l.length - 3)

/-- The analysis prompt f-string of `analyze_conversation_patterns`
(literal braces written with escapes). -/
def buildAnalysisPrompt (persona_name : String) (all_messages : List Msg) : String :=
  let user_messages := (all_messages.filter (fun m => m.role == "user")).map Msg.content
  let assistant_messages := (all_messages.filter (fun m => m.role == "assistant")).map Msg.content
  "Analyze these conversations with the persona \"" ++ persona_name ++
  "\" to identify patterns and learning opportunities.\n\nTotal exchanges: " ++
  toString (all_messages.length / 2) ++
  "\n\nSample user messages (first 5):\n" ++
  pyJoinSep "\n" (user_messages.take 5) ++
  "\n\nSample assistant responses (first 5):\n" ++
  pyJoinSep "\n" (assistant_messages.take 5) ++
  "\n\nLatest user messages (last 3):\n" ++
  pyJoinSep "\n" (lastThree user_messages) ++
  "\n\nLatest assistant responses (last 3):\n" ++
  pyJoinSep "\n" (lastThree assistant_messages) ++
  "\n\nAnalyze:\n1. What topics does the user frequently discuss?\n2. What response patterns are working well?\n3. What speaking patterns has the persona developed?\n4. What improvements would make the persona more authentic?\n\nProvide a JSON response with these fields:\n\x7b\n    \"common_topics\": [\"topic1\", \"topic2\", \"topic3\"],\n    \"successful_patterns\": [\"pattern1\", \"pattern2\"],\n    \"suggested_personality_additions\": \"text describing additional personality traits based on conversations\",\n    \"suggested_behavior_additions\": \"text describing new behaviors observed or needed\",\n    \"speaking_style_refinements\": \"text describing speaking style improvements\"\n\x7d"

/-- The fence-stripping step applied to the completion response text:
`text = response.text.strip()`, then if it starts with a code fence,
keep the part between the first pair of fences
(`text.split(\x60\x60\x60)[1]` on a string that starts with the
fence is exactly the characters after position 3 and before the next
fence occurrence) and drop an optional leading `json` tag. -/
def cleanFenced (rtext : String) : String :=
  let text := pyStripWS rtext
  if strBeg "```" text then
    let t := String.mk (upTo "```".data (text.data.drop 3))
    if strBeg "json" t then String.mk (t.data.drop 4) else t
  else text

/-- Embedding of `memory_learning.analyze_conversation_patterns`.
`storage` is the outcome of `get_all_persona_messages`, `client` the
completion capability (`Except.error` = raised exception), `jparse`
the `json.loads`-plus-field-extraction step (`none` = parse failure).
The second component of the result counts completion-capability
invocations (instrumentation for the no-call property; the source
calls the capability exactly where the count is incremented). -/
def analyze_conversation_patterns (persona_name : String)
    (storage : Except String (List Msg))
    (client : String → Except String String)
    (jparse : String → Option AnalysisData) : LearningAnalysis × Nat :=
  match storage with
  | .error e =>
    ({ success := false, message := some ("Error analyzing patterns: " ++ e) }, 0)
  | .ok all_messages =>
    if all_messages.length < 10 then
      ({ success := false, message := some needMsg }, 0)
    else
      let analysis_prompt := buildAnalysisPrompt persona_name all_messages
      match client analysis_prompt with
      | .error e =>
        ({ success := false, message := some ("Error analyzing patterns: " ++ e) }, 1)
      | .ok rtext =>
        if rtext ≠ "" then
          let text := cleanFenced rtext
          match jparse text with
          | some analysis => ({ success := true, analysis := some analysis }, 1)
          | none =>
            ({ success := true, analysis := some { raw_response := some text } }, 1)
        else
          ({ success := false, message := some "Unable to generate analysis at this time." }, 1)

/-- `f"{current}, {new}".strip(', ')`: the merge step of
`apply_learning_to_persona`. -/
def mergeText (current new : String) : String := pyStripCS (current ++ ", " ++ new)

/-- One field merge of `apply_learning_to_persona`: applied when the
suggestion key is present, truthy, and not already a substring of the
current value. -/
def fieldMerge (current : Option String) (sug : Option String) : Option String :=
  match sug with
  | none => current
  | some s =>
    if s = "" then current
    else if strIn s (pget current) then current
    else some (mergeText (pget current) s)

/-- The personality update of `apply_learning_to_persona`. -/
def updPersonality (p : PersonaProfile) (a : AnalysisData) : PersonaProfile :=
  { p with personality := fieldMerge p.personality a.suggested_personality_additions }

/-- The behaviors update of `apply_learning_to_persona`. -/
def updBehaviors (p : PersonaProfile) (a : AnalysisData) : PersonaProfile :=
  { p with behaviors := fieldMerge p.behaviors a.suggested_behavior_additions }

/-- The speaking-style update of `apply_learning_to_persona`. -/
def updSpeakingStyle (p : PersonaProfile) (a : AnalysisData) : PersonaProfile :=
  { p with speaking_style := fieldMerge p.speaking_style a.speaking_style_refinements }

/-- Embedding of `memory_learning.apply_learning_to_persona`: copy the
profile, return it unchanged when the record carries no `'analysis'`
key, otherwise merge the three suggestion fields in source order. -/
def apply_learning_to_persona (character_profile : PersonaProfile)
    (learning_analysis : LearningAnalysis) : PersonaProfile :=
  match learning_analysis.analysis with
  | none => character_profile
  | some analysis =>
    updSpeakingStyle (updBehaviors (updPersonality character_profile analysis) analysis) analysis

/- ## Spec-side definitions (written from the spec's words, for
refinement comparisons) -/

/-- Spec-side paragraph: emitted only for a non-blank field value. -/
def optPara (label v : String) : String := if v = "" then "" else fieldPara label v

/-- Spec-side prompt composition: header, then one labeled paragraph
per present/non-blank field in the fixed order name, personality,
behaviors, speaking_style, mannerisms, background, then the fixed
instruction block. -/
def specCompose (p : PersonaProfile) : String :=
  promptHeader ++
  optPara "Name: " (pget p.name) ++
  optPara "Personality Traits: " (pget p.personality) ++
  optPara "Behaviors and Habits: " (pget p.behaviors) ++
  optPara "Speaking Style: " (pget p.speaking_style) ++
  optPara "Mannerisms and Quirks: " (pget p.mannerisms) ++
  optPara "Background: " (pget p.background) ++
  instrBlock

/-- Replace a blank field value by an absent one. -/
def normF : Option String → Option String
  | none => none
  | some s => if s = "" then none else some s

/-- The profile with every blank field replaced by an absent one. -/
def normProfile (p : PersonaProfile) : PersonaProfile :=
  { name := normF p.name, personality := normF p.personality,
    behaviors := normF p.behaviors, speaking_style := normF p.speaking_style,
    mannerisms := normF p.mannerisms, background := normF p.background }

/-- Spec-side bullets of one session: the conversation's two most
recent user messages among its last 4 messages, most-recent-first
(`messages.reverse.take 4` lists the last 4 most-recent-first). -/
def specBullets (messages : List Msg) : List String :=
  (((messages.reverse.take 4).filter (fun m => m.role == "user")).take 2).map bulletOf

/-- Spec-side session block: empty without bullets, otherwise the
`"Previous session:"` label followed by the bullets. -/
def specSessionBlock (messages : List Msg) : String :=
  if specBullets messages = [] then ""
  else "\nPrevious session:\n" ++ pyJoinSep "\n" (specBullets messages)

/-- A storage outcome delivering well-formed conversations. -/
def okStorage (convs : List (List Msg)) : Except String (List Conv) :=
  Except.ok (convs.map (fun m => ⟨Except.ok m⟩))

/-- A suggestion string that does not start or end with one of the
characters stripped by `.strip(', ')`. -/
def cleanEnds (s : String) : Bool :=
  match s.data, s.data.reverse with
  | [], _ => true
  | _, [] => true
  | c :: _, d :: _ => !stripChar c && !stripChar d

/- ## Lemmas about the string utilities -/

theorem begWith_refl (l : List Char) : begWith l l = true := by
  induction l with
  | nil => rfl
  | cons a t ih => simp [begWith, ih]

theorem begWith_append (h n b : List Char) (hb : begWith h n = true) :
    begWith (h ++ b) n = true := by
  induction n generalizing h with
  | nil => simp [begWith]
  | cons x xs ih =>
    cases h with
    | nil => simp [begWith] at hb
    | cons a t =>
      simp only [begWith, Bool.and_eq_true] at hb
      simp only [List.cons_append, begWith, Bool.and_eq_true]
      exact ⟨hb.1, ih t hb.2⟩

theorem hasSub_nil_needle (hay : List Char) : hasSub hay [] = true := by
  cases hay with
  | nil => rfl
  | cons a t => simp [hasSub, begWith]

theorem hasSub_cons (x : Char) (l n : List Char) :
    hasSub (x :: l) n = (begWith (x :: l) n || hasSub l n) := rfl

theorem hasSub_append_left (a b n : List Char) (hb : hasSub b n = true) :
    hasSub (a ++ b) n = true := by
  induction a with
  | nil => simpa using hb
  | cons x t ih => simp [List.cons_append, hasSub_cons, ih]

theorem hasSub_suffix (t n : List Char) : hasSub (t ++ n) n = true := by
  induction t with
  | nil =>
    cases n with
    | nil => rfl
    | cons c cs => simp [hasSub, begWith_refl]
  | cons x xs ih =>
    simp only [List.cons_append, hasSub, Bool.or_eq_true]
    right
    exact ih

theorem hasSub_append_right (a b n : List Char) (ha : hasSub a n = true) :
    hasSub (a ++ b) n = true := by
  induction a with
  | nil =>
    cases n with
    | nil => exact hasSub_nil_needle b
    | cons c cs => simp [hasSub] at ha
  | cons x t ih =>
    simp only [hasSub, Bool.or_eq_true] at ha
    simp only [List.cons_append, hasSub, Bool.or_eq_true]
    rcases ha with h1 | h2
    · exact Or.inl (begWith_append _ _ _ h1)
    · exact Or.inr (ih h2)

theorem strIn_append_of_right (s a b : String) (h : strIn s b = true) :
    strIn s (a ++ b) = true := by
  simp only [strIn, String.data_append]
  exact hasSub_append_left _ _ _ h

theorem strIn_append_of_left (s a b : String) (h : strIn s a = true) :
    strIn s (a ++ b) = true := by
  simp only [strIn, String.data_append]
  exact hasSub_append_right _ _ _ h

theorem dropLeadCh_append_keep (a : List Char) (c : Char) (bs : List Char)
    (hc : stripChar c = false) :
    ∃ t, dropLeadCh (a ++ c :: bs) = t ++ c :: bs := by
  induction a with
  | nil => exact ⟨[], by simp [dropLeadCh, hc]⟩
  | cons x xs ih =>
    by_cases hx : stripChar x = true
    · simpa [dropLeadCh, hx] using ih
    · exact ⟨x :: xs, by simp [dropLeadCh, hx]⟩

theorem dropLeadCh_cons_keep (c : Char) (l : List Char) (hc : stripChar c = false) :
    dropLeadCh (c :: l) = c :: l := by
  simp [dropLeadCh, hc]

/-- Where the merged text keeps the appended suggestion: when the
suggestion has clean ends, `.strip(', ')` cannot eat into it, so the
suggestion stays a substring of the merge result. -/
theorem strIn_mergeText (current s : String) (hne : s ≠ "") (hclean : cleanEnds s = true) :
    strIn s (mergeText current s) = true := by
  obtain ⟨c, rest, hd⟩ : ∃ c rest, s.data = c :: rest := by
    cases hs : s.data with
    | nil => exact absurd (by cases s with | mk l => cases l with | nil => rfl | cons a t => simp at hs) hne
    | cons c rest => exact ⟨c, rest, rfl⟩
  obtain ⟨d, r, hr⟩ : ∃ d r, s.data.reverse = d :: r := by
    cases hrv : s.data.reverse with
    | nil => rw [List.reverse_eq_nil_iff] at hrv; simp [hrv] at hd
    | cons d r => exact ⟨d, r, rfl⟩
  rw [hd] at hr
  have hcd : stripChar c = false ∧ stripChar d = false := by
    have := hclean
    unfold cleanEnds at this
    rw [hd, hr] at this
    simpa using this
  -- the char list being stripped
  have hdata : (current ++ ", " ++ s).data = (current.data ++ [',', ' ']) ++ s.data := by
    simp [String.data_append]
  obtain ⟨t, ht⟩ := dropLeadCh_append_keep (current.data ++ [',', ' ']) c rest hcd.1
  have h1 : dropLeadCh (current ++ ", " ++ s).data = t ++ s.data := by
    rw [hdata, hd, ht]
  have hsplit : s.data = r.reverse ++ [d] := by
    rw [hd]
    have := congrArg List.reverse hr
    simpa using this
  have h2 : (dropLeadCh (current ++ ", " ++ s).data).reverse = d :: (r ++ t.reverse) := by
    rw [h1, hsplit]
    simp
  have h3 : dropLeadCh ((dropLeadCh (current ++ ", " ++ s).data).reverse) = d :: (r ++ t.reverse) := by
    rw [h2]
    exact dropLeadCh_cons_keep _ _ hcd.2
  have h4 : (mergeText current s).data = t ++ s.data := by
    show (pyStripCS (current ++ ", " ++ s)).data = t ++ s.data
    unfold pyStripCS
    rw [h3]
    have : (d :: (r ++ t.reverse)).reverse = t ++ s.data := by
      rw [hsplit]
      simp
    rw [this]
  show hasSub (mergeText current s).data s.data = true
  rw [h4]
  exact hasSub_suffix t s.data

/-- The constraint under which the merge is idempotent: an absent
suggestion, or one whose ends survive `.strip(', ')`. -/
def cleanSug : Option String → Bool
  | none => true
  | some s => cleanEnds s

/-- One-field idempotence of the merge step: once a clean-ended
suggestion has been appended, it is a substring of the stored value,
so a second application is a no-op. -/
theorem fieldMerge_idem (cur sug : Option String) (h : cleanSug sug = true) :
    fieldMerge (fieldMerge cur sug) sug = fieldMerge cur sug := by
  cases sug with
  | none => rfl
  | some s =>
    have hc : cleanEnds s = true := by simpa [cleanSug] using h
    by_cases hs : s = ""
    · simp [fieldMerge, hs]
    · by_cases hin : strIn s (pget cur) = true
      · simp [fieldMerge, hs, hin]
      · have hin2 : strIn s (pget (some (mergeText (pget cur) s))) = true := by
          simpa [pget] using strIn_mergeText (pget cur) s hs hc
        simp [fieldMerge, hs, hin, hin2]

/- ## Lemmas about the memory context -/

theorem filterMapIf (p : Msg → Bool) (f : Msg → String) (l : List Msg) :
    l.filterMap (fun x => if p x then some (f x) else none) = (l.filter p).map f := by
  induction l with
  | nil => rfl
  | cons a t ih => by_cases h : p a <;> simp [h, ih]

theorem sessionPoints_take (messages : List Msg) :
    (sessionPoints messages).take 2 = specBullets messages := by
  unfold sessionPoints specBullets
  rw [filterMapIf]
  exact (List.map_take _ _ _).symm

theorem sessionBlock_eq_spec (messages : List Msg) :
    sessionBlock messages = specSessionBlock messages := by
  unfold sessionBlock specSessionBlock
  rw [← sessionPoints_take]
  cases hp : sessionPoints messages with
  | nil => simp
  | cons a t => simp

theorem convsBlocks_ok (convs : List (List Msg)) :
    convsBlocks (convs.map (fun m => ⟨Except.ok m⟩)) =
      Except.ok (joinAll (convs.map sessionBlock)) := by
  induction convs with
  | nil => rfl
  | cons c rest ih => simp [convsBlocks, joinAll, ih]

theorem convsBlocks_error (convs : List Conv)
    (h : ∃ c ∈ convs, ∃ e, c.messages = Except.error e) :
    ∃ e', convsBlocks convs = Except.error e' := by
  induction convs with
  | nil => simp at h
  | cons c rest ih =>
    obtain ⟨c', hmem, e, he⟩ := h
    rcases List.mem_cons.mp hmem with rfl | hmem'
    · exact ⟨e, by simp [convsBlocks, he]⟩
    · cases hc : c.messages with
      | error e2 => exact ⟨e2, by simp [convsBlocks, hc]⟩
      | ok msgs =>
        obtain ⟨e', he'⟩ := ih ⟨c', hmem', e, he⟩
        exact ⟨e', by simp [convsBlocks, hc, he']⟩

theorem strIn_joinAll (n : String) (blocks : List String) (b : String)
    (hmem : b ∈ blocks) (hb : strIn n b = true) : strIn n (joinAll blocks) = true := by
  induction blocks with
  | nil => simp at hmem
  | cons x rest ih =>
    show strIn n (x ++ joinAll rest) = true
    rcases List.mem_cons.mp hmem with rfl | hmem'
    · exact strIn_append_of_left _ _ _ hb
    · exact strIn_append_of_right _ _ _ (ih hmem')

theorem pget_normF (o : Option String) : pget (normF o) = pget o := by
  cases o with
  | none => rfl
  | some s =>
    by_cases h : s = "" <;> simp [normF, pget, h]

/- ## Concrete fixtures -/

def emptyProfile : PersonaProfile := ⟨none, none, none, none, none, none⟩

/-- A success analysis whose suggestion ends in `", "`, which the
`.strip(', ')` call mangles. -/
def sloppyAnalysis : LearningAnalysis :=
  { success := true, analysis := some { suggested_personality_additions := some "hi, " } }

def cleanData : AnalysisData := { suggested_personality_additions := some "warm" }

def cleanAnalysis : LearningAnalysis := { success := true, analysis := some cleanData }

def failureAnalysis : LearningAnalysis := { success := false, message := some needMsg }

/- ## Claims about the ProfileMutator -/

/-- Claim C1, counterexample: the mutator is not idempotent for every
profile and success analysis. With the empty profile and the success
analysis suggesting `"hi, "`, one application stores personality
`"hi"` (the strip call removes the trailing comma-space), so the
containment check fails again and a second application stores
`"hi, hi"`. -/
theorem c1_counterexample :
    sloppyAnalysis.success = true ∧
    apply_learning_to_persona (apply_learning_to_persona emptyProfile sloppyAnalysis) sloppyAnalysis ≠
      apply_learning_to_persona emptyProfile sloppyAnalysis := by
  decide

/-- Claim C1 (amended): for every profile and success-case analysis
whose suggestion strings neither start nor end with a comma or space,
applying the mutation twice with the same analysis equals applying it
once. -/
theorem c1_mutator_idempotent (p : PersonaProfile) (la : LearningAnalysis) (a : AnalysisData)
    (_hs : la.success = true) (ha : la.analysis = some a)
    (h1 : cleanSug a.suggested_personality_additions = true)
    (h2 : cleanSug a.suggested_behavior_additions = true)
    (h3 : cleanSug a.speaking_style_refinements = true) :
    apply_learning_to_persona (apply_learning_to_persona p la) la =
      apply_learning_to_persona p la := by
  cases p with
  | mk n pe be ss ma bg =>
    simp only [apply_learning_to_persona, ha, updPersonality, updBehaviors, updSpeakingStyle]
    simp [fieldMerge_idem _ _ h1, fieldMerge_idem _ _ h2, fieldMerge_idem _ _ h3]

/-- Witness for C1 (amended) at a concrete clean suggestion. -/
theorem c1_mutator_idempotent_witness :
    apply_learning_to_persona (apply_learning_to_persona emptyProfile cleanAnalysis) cleanAnalysis =
      apply_learning_to_persona emptyProfile cleanAnalysis :=
  c1_mutator_idempotent emptyProfile cleanAnalysis cleanData rfl rfl
    (by decide) (by decide) (by decide)

/-- Claim C8: for every profile and success analysis, the mutator
returns a value with `name`, `background` (and `mannerisms`) equal to
the input's; the input itself is untouched (the embedding is a pure
function on values, matching the source's `.copy()`). -/
theorem c8_frame (p : PersonaProfile) (la : LearningAnalysis) (_hs : la.success = true) :
    (apply_learning_to_persona p la).name = p.name ∧
    (apply_learning_to_persona p la).background = p.background ∧
    (apply_learning_to_persona p la).mannerisms = p.mannerisms := by
  cases hla : la.analysis with
  | none => simp [apply_learning_to_persona, hla]
  | some a => simp [apply_learning_to_persona, hla, updPersonality, updBehaviors, updSpeakingStyle]

/-- Witness for C8 at a concrete success analysis. -/
theorem c8_frame_witness :
    (apply_learning_to_persona emptyProfile cleanAnalysis).name = emptyProfile.name ∧
    (apply_learning_to_persona emptyProfile cleanAnalysis).background = emptyProfile.background ∧
    (apply_learning_to_persona emptyProfile cleanAnalysis).mannerisms = emptyProfile.mannerisms :=
  c8_frame emptyProfile cleanAnalysis rfl

/-- Claim C10: a learning record without an analysis payload (in
particular any failure record) leaves the profile exactly as it was. -/
theorem c10_failure_noop (p : PersonaProfile) (la : LearningAnalysis)
    (h : la.analysis = none) : apply_learning_to_persona p la = p := by
  simp [apply_learning_to_persona, h]

/-- Witness for C10 at the concrete insufficient-data failure record. -/
theorem c10_failure_noop_witness :
    apply_learning_to_persona emptyProfile failureAnalysis = emptyProfile :=
  c10_failure_noop emptyProfile failureAnalysis rfl

/- ## Claims about the TraitClassifier -/

/-- The high-emoji test of `analyze_tone_and_emoji_patterns`, over the
lower-cased `personality` and `speaking_style` texts. -/
def emojiHi (p : PersonaProfile) : Bool :=
  high_emoji_keywords.any
    (fun k => kwHit k (pyLower (pget p.personality)) (pyLower (pget p.speaking_style)))

/-- The low-emoji test of `analyze_tone_and_emoji_patterns`. -/
def emojiLo (p : PersonaProfile) : Bool :=
  low_emoji_keywords.any
    (fun k => kwHit k (pyLower (pget p.personality)) (pyLower (pget p.speaking_style)))

/-- Claim C2: the emoji decision follows the fixed precedence over the
lower-cased profile texts — a high-emoji keyword forces `high` with
the fixed 8-glyph set; otherwise a low-emoji keyword forces `minimal`
with empty examples; otherwise `moderate` with the fixed 3-glyph set.
In particular `"cheerful"` in the personality forces `high` with
non-empty examples, and `"formal"` with no high-emoji keyword forces
`minimal` with empty examples. -/
theorem c2_emoji_precedence (p : PersonaProfile) :
    ((analyze_tone_and_emoji_patterns p).emoji_usage =
      if emojiHi p then "high" else if emojiLo p then "minimal" else "moderate") ∧
    ((analyze_tone_and_emoji_patterns p).emoji_examples =
      if emojiHi p then ["😊", "✨", "🎉", "💫", "🌟", "❤️", "🙌", "👍"]
      else if emojiLo p then []
      else ["😊", "👍", "✨"]) ∧
    (strIn "cheerful" (pyLower (pget p.personality)) = true →
      (analyze_tone_and_emoji_patterns p).emoji_usage = "high" ∧
      (analyze_tone_and_emoji_patterns p).emoji_examples ≠ []) ∧
    (strIn "formal" (pyLower (pget p.personality)) = true → emojiHi p = false →
      (analyze_tone_and_emoji_patterns p).emoji_usage = "minimal" ∧
      (analyze_tone_and_emoji_patterns p).emoji_examples = []) := by
  have h1 : (analyze_tone_and_emoji_patterns p).emoji_usage =
      if emojiHi p then "high" else if emojiLo p then "minimal" else "moderate" := rfl
  have h2 : (analyze_tone_and_emoji_patterns p).emoji_examples =
      if emojiHi p then ["😊", "✨", "🎉", "💫", "🌟", "❤️", "🙌", "👍"]
      else if emojiLo p then []
      else ["😊", "👍", "✨"] := rfl
  refine ⟨h1, h2, ?_, ?_⟩
  · intro hch
    have hhi : emojiHi p = true := by
      unfold emojiHi
      rw [List.any_eq_true]
      exact ⟨"cheerful", by decide, by simp [kwHit, hch]⟩
    exact ⟨by simp [h1, hhi], by simp [h2, hhi]⟩
  · intro hf hnohi
    have hlo : emojiLo p = true := by
      unfold emojiLo
      rw [List.any_eq_true]
      exact ⟨"formal", by decide, by simp [kwHit, hf]⟩
    exact ⟨by simp [h1, hnohi, hlo], by simp [h2, hnohi, hlo]⟩

def cheerProfile : PersonaProfile := { personality := some "Cheerful, optimistic" }

def formalProfile : PersonaProfile := { personality := some "very formal person" }

/-- Witness for C2 at a cheerful and at a formal concrete profile. -/
theorem c2_emoji_precedence_witness :
    ((analyze_tone_and_emoji_patterns cheerProfile).emoji_usage = "high" ∧
     (analyze_tone_and_emoji_patterns cheerProfile).emoji_examples ≠ []) ∧
    ((analyze_tone_and_emoji_patterns formalProfile).emoji_usage = "minimal" ∧
     (analyze_tone_and_emoji_patterns formalProfile).emoji_examples = []) :=
  ⟨(c2_emoji_precedence cheerProfile).2.2.1 (by decide),
   (c2_emoji_precedence formalProfile).2.2.2 (by decide) (by decide)⟩

/- ## Claims about the FeedbackAdvisor -/

/-- A profile whose `speaking_style` key is present but blank. -/
def blankStyleProfile : PersonaProfile := { speaking_style := some "" }

/-- Claim C9, counterexample: the speaking-style bullet is not gated
on the field being populated — the source tests key presence only, so
a profile whose `speaking_style` key holds the blank string still gets
the speaking-style bullet on negative feedback. -/
theorem c9_counterexample :
    pget blankStyleProfile.speaking_style = "" ∧
    apply_feedback_to_persona blankStyleProfile "negative" "" =
      ["💡 Here are some ways to improve:",
       "- Try adjusting the speaking style for better alignment",
       "- Use the \x27Refine\x27 feature to get AI-powered suggestions"] := by
  decide

/-- Claim C9 (amended): on the positive signal the advisor returns the
fixed two-item encouragement list; on any other signal it returns the
fixed lead-in first, the fixed closing bullet last, and the
speaking-style / personality bullets exactly when the corresponding
profile key is present (even with a blank value). -/
theorem c9_feedback_advice (p : PersonaProfile) (feedback_type rc : String) :
    (feedback_type = "positive" →
      apply_feedback_to_persona p feedback_type rc =
        ["✅ Great! The character\x27s response style is working well in this context.",
         "Consider saving this persona if you haven\x27t already."]) ∧
    (feedback_type ≠ "positive" →
      (apply_feedback_to_persona p feedback_type rc).head? =
        some "💡 Here are some ways to improve:" ∧
      (apply_feedback_to_persona p feedback_type rc).getLast? =
        some "- Use the \x27Refine\x27 feature to get AI-powered suggestions" ∧
      ("- Try adjusting the speaking style for better alignment" ∈
          apply_feedback_to_persona p feedback_type rc ↔ p.speaking_style.isSome) ∧
      ("- Consider refining personality traits to better match expectations" ∈
          apply_feedback_to_persona p feedback_type rc ↔ p.personality.isSome)) := by
  constructor
  · intro h
    simp [apply_feedback_to_persona, h]
  · intro h
    cases hss : p.speaking_style <;> cases hp : p.personality <;>
      simp [apply_feedback_to_persona, h, hss, hp]

/-- Witness for C9 (amended) at the empty profile. -/
theorem c9_feedback_advice_witness :
    apply_feedback_to_persona emptyProfile "positive" "" =
      ["✅ Great! The character\x27s response style is working well in this context.",
       "Consider saving this persona if you haven\x27t already."] ∧
    ("- Try adjusting the speaking style for better alignment" ∈
        apply_feedback_to_persona emptyProfile "negative" "" ↔
      emptyProfile.speaking_style.isSome) :=
  ⟨(c9_feedback_advice emptyProfile "positive" "").1 rfl,
   ((c9_feedback_advice emptyProfile "negative" "").2 (by decide)).2.2.1⟩

/- ## Claims about the ConversationAnalyzer -/

/-- Claim C4: with fewer than 10 retrieved messages the analyzer
returns `success=false` with the "need at least" message and performs
no completion call (call count 0); with 10 or more it performs exactly
one completion call. -/
theorem c4_threshold (persona_name : String) (msgs : List Msg)
    (client : String → Except String String) (jparse : String → Option AnalysisData) :
    (msgs.length < 10 →
      analyze_conversation_patterns persona_name (Except.ok msgs) client jparse =
        ({ success := false, message := some needMsg }, 0) ∧
      strIn "need at least" (pyLower needMsg) = true) ∧
    (10 ≤ msgs.length →
      (analyze_conversation_patterns persona_name (Except.ok msgs) client jparse).2 = 1) := by
  constructor
  · intro h
    exact ⟨by simp [analyze_conversation_patterns, h], by decide⟩
  · intro h
    have h' : ¬ msgs.length < 10 := Nat.not_lt.mpr h
    simp only [analyze_conversation_patterns, h', if_false]
    cases hc : client (buildAnalysisPrompt persona_name msgs) with
    | error e => simp
    | ok rtext =>
      by_cases hr : rtext = ""
      · simp [hr]
      · cases hj : jparse (cleanFenced rtext) <;> simp [hr, hj]

def msgs9 : List Msg := List.replicate 9 ⟨"user", "m"⟩

def msgs10 : List Msg := List.replicate 10 ⟨"user", "m"⟩

def clientC : String → Except String String := fun _ => Except.ok "raw"

def jparseC : String → Option AnalysisData := fun _ => none

/-- Witness for C4 at exactly 9 and exactly 10 stored messages. -/
theorem c4_threshold_witness :
    (analyze_conversation_patterns "p" (Except.ok msgs9) clientC jparseC =
       ({ success := false, message := some needMsg }, 0) ∧
     strIn "need at least" (pyLower needMsg) = true) ∧
    (analyze_conversation_patterns "p" (Except.ok msgs10) clientC jparseC).2 = 1 :=
  ⟨(c4_threshold "p" msgs9 clientC jparseC).1 (by decide),
   (c4_threshold "p" msgs10 clientC jparseC).2 (by decide)⟩

/-- Claim C5: past the threshold, on a non-empty completion response
the analyzer cleans the text and returns `success=true` with the
parsed payload when parsing succeeds, and `success=true` with a
`raw_response` field holding the cleaned text verbatim when parsing
fails — a parse failure is never reported as `success=false`. -/
theorem c5_parse_fallback (persona_name : String) (msgs : List Msg)
    (client : String → Except String String) (jparse : String → Option AnalysisData)
    (rtext : String) (h10 : ¬ msgs.length < 10)
    (hc : client (buildAnalysisPrompt persona_name msgs) = Except.ok rtext)
    (hne : rtext ≠ "") :
    analyze_conversation_patterns persona_name (Except.ok msgs) client jparse =
      ({ success := true,
         analysis := some (match jparse (cleanFenced rtext) with
           | some a => a
           | none => { raw_response := some (cleanFenced rtext) }) }, 1) := by
  simp only [analyze_conversation_patterns, h10, if_false]
  rw [hc]
  cases hj : jparse (cleanFenced rtext) <;> simp [hne, hj]

/-- Witness for C5 at a concrete run whose parse step fails: the
result is `success=true` carrying the cleaned text. -/
theorem c5_parse_fallback_witness :
    analyze_conversation_patterns "p" (Except.ok msgs10) clientC jparseC =
      ({ success := true, analysis := some { raw_response := some "raw" } }, 1) := by
  have h := c5_parse_fallback "p" msgs10 clientC jparseC "raw" (by decide) rfl (by decide)
  rw [h]
  decide

/- ## Claims about the PromptComposer -/

theorem generate_norm (p : PersonaProfile) :
    generate_system_prompt (normProfile p) = generate_system_prompt p := by
  simp [generate_system_prompt, normProfile, pget_normF]

theorem analyze_norm (p : PersonaProfile) :
    analyze_tone_and_emoji_patterns (normProfile p) = analyze_tone_and_emoji_patterns p := by
  simp [analyze_tone_and_emoji_patterns, normProfile, pget_normF]

/-- Claim C6: the base prompt is exactly the fixed header, one labeled
paragraph per present/non-blank field in the fixed order name,
personality, behaviors, speaking_style, mannerisms, background, and
the fixed instruction block; and changing any blank field to an absent
one (or vice versa) leaves the full composed prompt unchanged. -/
theorem c6_prompt_composition (p : PersonaProfile) :
    generate_system_prompt p = specCompose p ∧
    enhancedSystemPrompt p = enhancedSystemPrompt (normProfile p) := by
  constructor
  · by_cases h1 : pget p.name = "" <;> by_cases h2 : pget p.personality = "" <;>
    by_cases h3 : pget p.behaviors = "" <;> by_cases h4 : pget p.speaking_style = "" <;>
    by_cases h5 : pget p.mannerisms = "" <;> by_cases h6 : pget p.background = "" <;>
      simp [generate_system_prompt, specCompose, optPara, h1, h2, h3, h4, h5, h6,
        String.append_assoc, String.append_empty, String.empty_append]
  · unfold enhancedSystemPrompt
    rw [generate_norm, analyze_norm]

/- ## Claims about the MemorySummarizer -/

theorem build_ok (convs : List (List Msg)) :
    build_memory_context (okStorage convs) =
      if convs.isEmpty then ""
      else memHeader ++ joinAll (convs.map specSessionBlock) ++ memTail := by
  have hfun : sessionBlock = specSessionBlock := funext sessionBlock_eq_spec
  cases convs with
  | nil => rfl
  | cons c rest =>
    have h1 : build_memory_context (okStorage (c :: rest)) =
        match convsBlocks ((c :: rest).map (fun m => ⟨Except.ok m⟩)) with
        | .error _ => ""
        | .ok blocks => memHeader ++ blocks ++ memTail := rfl
    rw [h1, convsBlocks_ok, hfun]
    simp

/-- Claim C3 counterexample: a single stored conversation whose last
messages contain no `role=user` entry yields a non-empty recall string
without any `"Previous session:"` label; and the ellipsis marker is
appended even to a 2-character content (the claim allows it only past
80 characters). -/
theorem c3_counterexample :
    build_memory_context (okStorage [[⟨"assistant", "hi"⟩]]) ≠ "" ∧
    strIn "Previous session:" (build_memory_context (okStorage [[⟨"assistant", "hi"⟩]])) = false ∧
    strIn "- User mentioned: hi..." (build_memory_context (okStorage [[⟨"user", "hi"⟩]])) = true ∧
    ("hi" : String).length ≤ 80 := by
  decide

/-- Claim C3 (amended): zero conversations give the empty string; with
conversations present the output is the fixed header, one block per
conversation in order, and the fixed trailer, where a block is empty
for a conversation with no user message among its last 4 messages and
otherwise holds `"Previous session:"` plus at most 2 bullets — the two
most recent user messages among the last 4, most-recent-first, each
truncated to 80 characters with the ellipsis marker always appended;
the label appears whenever some conversation has such a user message. -/
theorem c3_memory_structure (convs : List (List Msg)) :
    (build_memory_context (okStorage convs) =
      if convs.isEmpty then ""
      else memHeader ++ joinAll (convs.map specSessionBlock) ++ memTail) ∧
    (∀ messages, (specBullets messages).length ≤ 2) ∧
    ((∃ ms ∈ convs, specBullets ms ≠ []) →
      strIn "Previous session:" (build_memory_context (okStorage convs)) = true) := by
  refine ⟨build_ok convs, ?_, ?_⟩
  · intro messages
    simp only [specBullets, List.length_map, List.length_take]
    omega
  · rintro ⟨ms, hmem, hne⟩
    have hb : strIn "Previous session:" (specSessionBlock ms) = true := by
      unfold specSessionBlock
      rw [if_neg hne]
      exact strIn_append_of_left _ _ _ (by decide)
    have hjoin : strIn "Previous session:" (joinAll (convs.map specSessionBlock)) = true :=
      strIn_joinAll _ _ _ (List.mem_map_of_mem _ hmem) hb
    rw [build_ok convs]
    have hne2 : convs.isEmpty = false := by
      cases convs with
      | nil => simp at hmem
      | cons x rest => rfl
    rw [hne2]
    simp only [Bool.false_eq_true, if_false]
    exact strIn_append_of_left _ _ _ (strIn_append_of_right _ _ _ hjoin)

/-- Witness for C3 (amended) at one conversation with one user
message. -/
theorem c3_memory_structure_witness :
    strIn "Previous session:" (build_memory_context (okStorage [[⟨"user", "hi"⟩]])) = true :=
  (c3_memory_structure [[⟨"user", "hi"⟩]]).2.2 (by decide)

/-- Claim C7: the summarizer never raises — a storage error, and a
conversation whose stored messages fail to decode, both map to the
empty recall string (the embedding is total, so every other input also
returns a string). -/
theorem c7_never_raises :
    (∀ e, build_memory_context (Except.error e) = "") ∧
    (∀ convs : List Conv, (∃ c ∈ convs, ∃ e, c.messages = Except.error e) →
      build_memory_context (Except.ok convs) = "") := by
  constructor
  · intro e
    rfl
  · intro convs h
    obtain ⟨e', he'⟩ := convsBlocks_error convs h
    obtain ⟨c, hmem, _⟩ := h
    cases convs with
    | nil => simp at hmem
    | cons x rest => simp [build_memory_context, he']

/-- Witness for C7 at a failing storage call and at a malformed
conversation record. -/
theorem c7_never_raises_witness :
    build_memory_context (Except.error "storage down") = "" ∧
    build_memory_context (Except.ok [⟨Except.error "bad json"⟩]) = "" :=
  ⟨c7_never_raises.1 "storage down",
   c7_never_raises.2 [⟨Except.error "bad json"⟩]
     ⟨⟨Except.error "bad json"⟩, by simp, "bad json", rfl⟩⟩
